import Mathlib

/-!
# Verification of the two-service CTF fixture (public-app gateway / admin-api renderer)

Shallow embedding of the request handlers in `src/public-app/app.py` and
`src/admin-api/admin_api.py`.  Pure request handling is translated into Lean
functions; external effects (DNS resolution, the outbound HTTP client, the
filesystem, the Jinja2 template engine) are passed in as explicit oracle
parameters or recorded in the handler's result value.  Behaviour of the Python
standard library that the handlers rely on (`urllib.parse`, `ipaddress`,
`os.path`, `str` methods, `html.escape`) is modelled by hand, restricted to the
ASCII inputs these services deal with (Unicode-specific normalisation such as
IDNA or NFKC checks of `urllib` is out of scope and noted where relevant).
-/

namespace Ctf

/-! ## Basic character and list-of-char utilities (models of Python `str` ops) -/

/-- ASCII decimal digit. -/
def isDigitCh (c : Char) : Bool := '0' ≤ c && c ≤ '9'

/-- ASCII letter. -/
def isAlphaCh (c : Char) : Bool := ('a' ≤ c && c ≤ 'z') || ('A' ≤ c && c ≤ 'Z')

/-- ASCII lower-casing of one character (model of `str.lower` on the ASCII range). -/
def lowerCh (c : Char) : Char :=
  if 'A' ≤ c && c ≤ 'Z' then Char.ofNat (c.toNat + 32) else c

/-- Model of Python `str.lower()` (ASCII range). -/
def pyLower (s : String) : String := ⟨s.data.map lowerCh⟩

/-- Python whitespace for `str.strip()` (ASCII subset). -/
def isPyWs (c : Char) : Bool :=
  c == ' ' || c == '\t' || c == '\n' || c == '\r' || c == '\x0b' || c == '\x0c'

/-- Model of Python `str.strip()` (no argument form, ASCII whitespace). -/
def pyStrip (s : String) : String :=
  ⟨((s.data.dropWhile isPyWs).reverse.dropWhile isPyWs).reverse⟩

/-- `needle` occurs at the head of `hay`. -/
def startsW : List Char → List Char → Bool
  | [], _ => true
  | _ :: _, [] => false
  | c :: cs, d :: ds => c == d && startsW cs ds

/-- Substring occurrence on char lists (model of Python `in` on `str`). -/
def containsL (needle : List Char) : List Char → Bool
  | [] => startsW needle []
  | d :: ds => startsW needle (d :: ds) || containsL needle ds

/-- Model of the Python expression `needle in hay` for strings. -/
def pyIn (needle hay : String) : Bool := containsL needle.data hay.data

/-- Number of occurrences of character `c` in `s`. -/
def countCh (c : Char) (s : String) : Nat := s.data.count c

/-- Decimal value of a list of ASCII digits (most significant first). -/
def digitsVal (l : List Char) : Nat :=
  l.foldl (fun acc d => 10 * acc + (d.toNat - 48)) 0

/-- Fuel-driven worker for `str.replace`: replaces every non-overlapping
occurrence of `pat` (assumed non-empty) left to right. The fuel is the length
of the remaining input, which bounds the number of steps. -/
def replAux (pat rep : List Char) : Nat → List Char → List Char
  | _, [] => []
  | 0, l => l
  | fuel + 1, c :: cs =>
    if pat ≠ [] && startsW pat (c :: cs) then
      rep ++ replAux pat rep fuel ((c :: cs).drop pat.length)
    else
      c :: replAux pat rep fuel cs

/-- Model of Python `s.replace(pat, rep)` for a non-empty `pat`. -/
def pyReplace (s pat rep : String) : String :=
  ⟨replAux pat.data rep.data s.data.length s.data⟩

/-- First index of character `c` in `l`, if any. -/
def findIdx (c : Char) : List Char → Option Nat
  | [] => none
  | d :: ds => if d == c then some 0 else (findIdx c ds).map (· + 1)

/-! ## Model of `urllib.parse` (CPython `Lib/urllib/parse.py`)

Only the pieces the two services use: `urlsplit`/`urlparse` component
splitting, the `hostname` and `port` accessors, and `urlunparse`.  `urlparse`'s
separate `params` component is folded into the path (the handlers never touch
it, and `urlunparse` re-joins it with `;` so round trips agree).  A parse
error (`ValueError`, raised for mismatched brackets in the authority) is
an `Except.error`; uncaught it becomes a framework-level 500 response. -/

structure PySplit where
  scheme : String
  netloc : String
  path : String
  query : String
  fragment : String
deriving Repr, DecidableEq

/-- Characters CPython removes anywhere in a URL before parsing. -/
def urlUnsafeFilter (l : List Char) : List Char :=
  l.filter (fun c => !(c == '\t' || c == '\r' || c == '\n'))

/-- Valid characters of a URL scheme (`scheme_chars`). -/
def isSchemeCh (c : Char) : Bool :=
  isAlphaCh c || isDigitCh c || c == '+' || c == '-' || c == '.'

/-- Split a leading `scheme:` off a URL, as CPython `urlsplit` does:
the text before the first `:` must be non-empty, start with a letter and
consist of scheme characters. Returns (lower-cased scheme, remainder). -/
def splitScheme (l : List Char) : List Char × List Char :=
  match findIdx ':' l with
  | none => ([], l)
  | some i =>
    if i > 0 then
      match l with
      | [] => ([], l)
      | c0 :: _ =>
        if isAlphaCh c0 && (l.take i).all isSchemeCh then
          ((l.take i).map lowerCh, l.drop (i + 1))
        else ([], l)
    else ([], l)

/-- CPython `_splitnetloc`: the authority runs until the first `/`, `?` or `#`. -/
def splitNetloc (l : List Char) : List Char × List Char :=
  (l.takeWhile (fun c => !(c == '/' || c == '?' || c == '#')),
   l.dropWhile (fun c => !(c == '/' || c == '?' || c == '#')))

/-- Split `l` at the first occurrence of `c`: `(before, after)`, where the
separator is dropped; `after = none` when `c` does not occur (model of
Python `str.partition` / `str.split(c, 1)`). -/
def splitFirst (c : Char) (l : List Char) : List Char × Option (List Char) :=
  match findIdx c l with
  | none => (l, none)
  | some i => (l.take i, some (l.drop (i + 1)))

/-- Everything after the last occurrence of `c` (model of `str.rpartition(c)[2]`;
the whole string when `c` is absent). -/
def afterLast (c : Char) (l : List Char) : List Char :=
  (l.reverse.takeWhile (fun d => !(d == c))).reverse

/-- Model of CPython `urlsplit` (post bpo-43882: strips leading
C0-control/space, removes tab/CR/LF anywhere, then splits scheme, authority,
fragment and query).  Mismatched `[`/`]` in the authority raise `ValueError`,
modelled as `Except.error`. -/
def pyUrlsplit (url : String) : Except Unit PySplit := do
  let l0 := (url.data.dropWhile (fun c => c.toNat ≤ 0x20))
  let l := urlUnsafeFilter l0
  let (scheme, rest) := splitScheme l
  let (netloc, rest) :=
    if startsW ['/', '/'] rest then splitNetloc (rest.drop 2) else ([], rest)
  if (netloc.contains '[' && !netloc.contains ']') ||
     (netloc.contains ']' && !netloc.contains '[') then
    throw ()
  let (rest, fragment) := splitFirst '#' rest
  let (rest, query) := splitFirst '?' rest
  pure { scheme := ⟨scheme⟩, netloc := ⟨netloc⟩, path := ⟨rest⟩,
         query := ⟨query.getD []⟩, fragment := ⟨fragment.getD []⟩ }

/-- CPython `_hostinfo`: strip the userinfo (`...@`), then split host and port
text.  In the bracketed (IPv6) form the host is the text inside `[...]` and the
port follows a `:` after the closing bracket. -/
def hostinfo (netloc : List Char) : List Char × Option (List Char) :=
  let hi := afterLast '@' netloc
  match splitFirst '[' hi with
  | (_, some bracketed) =>
    let (host, rest) := splitFirst ']' bracketed
    let port := match rest with
      | none => none
      | some r => (splitFirst ':' r).2
    (host, port)
  | (_, none) =>
    let (host, port) := splitFirst ':' hi
    (host, port)

/-- Model of the `SplitResult.hostname` property: `None` when empty, else
lower-cased (IPv6 zone-id casing subtleties out of scope). -/
def pyHostname (p : PySplit) : Option String :=
  let (h, _) := hostinfo p.netloc.data
  if h.isEmpty then none else some ⟨h.map lowerCh⟩

/-- Model of the `SplitResult.port` property: `None` for an absent or empty
port, the numeric value for an ASCII-decimal port in `0..65535`, and
`ValueError` (`Except.error`) otherwise (the tolerance of `int()` for
underscores, signs and non-ASCII digits is out of scope). -/
def pyPort (p : PySplit) : Except Unit (Option Nat) :=
  let (_, port) := hostinfo p.netloc.data
  match port with
  | none => pure none
  | some ps =>
    if ps.isEmpty then pure none
    else if ps.all isDigitCh then
      let n := digitsVal ps
      if n ≤ 65535 then pure (some n) else throw ()
    else throw ()

/-- Model of CPython `urlunsplit` (and of `urlunparse` given that we keep
`params` inside the path). -/
def pyUrlunsplit (p : PySplit) : String :=
  let url := p.path.data
  let url :=
    if !p.netloc.data.isEmpty || startsW ['/', '/'] url then
      let url' := if !url.isEmpty && !startsW ['/'] url then '/' :: url else url
      ['/', '/'] ++ p.netloc.data ++ url'
    else url
  let url := if !p.scheme.data.isEmpty then p.scheme.data ++ [':'] ++ url else url
  let url := if !p.query.data.isEmpty then url ++ ['?'] ++ p.query.data else url
  let url := if !p.fragment.data.isEmpty then url ++ ['#'] ++ p.fragment.data else url
  ⟨url⟩

/-- Value of one hexadecimal digit character, if it is one. -/
def hexVal (c : Char) : Option Nat :=
  let n := c.toNat
  if 48 ≤ n && n ≤ 57 then some (n - 48)
  else if 97 ≤ n && n ≤ 102 then some (n - 87)
  else if 65 ≤ n && n ≤ 70 then some (n - 55)
  else none

/-- Model of `urllib.parse.unquote` restricted to single-byte (ASCII)
percent-escapes: `%XX` with `XX < 0x80` decodes to that character, any other
`%` is kept literally.  (Multi-byte UTF-8 escape runs, which the handlers
never depend on, are out of scope of this model.) -/
def unquoteAux : Nat → List Char → List Char
  | _, [] => []
  | 0, l => l
  | fuel + 1, c :: cs =>
    if c == '%' then
      match cs with
      | h1 :: h2 :: rest =>
        match hexVal h1, hexVal h2 with
        | some v1, some v2 =>
          if v1 * 16 + v2 < 0x80 then
            Char.ofNat (v1 * 16 + v2) :: unquoteAux fuel rest
          else c :: unquoteAux fuel cs
        | _, _ => c :: unquoteAux fuel cs
      | _ => c :: unquoteAux fuel cs
    else c :: unquoteAux fuel cs

/-- Model of `urllib.parse.unquote` (see `unquoteAux`). -/
def pyUnquote (s : String) : String := ⟨unquoteAux s.data.length s.data⟩

/-! ## Model of `ipaddress` as used by `is_ip_allowed` -/

/-- Parse one dotted-quad octet (`ipaddress`'s strict rules: 1-3 ASCII digits,
no leading zeros, value ≤ 255). -/
def parseOctet (l : List Char) : Option Nat :=
  if l.isEmpty || l.length > 3 || !l.all isDigitCh then none
  else if l.length > 1 && startsW ['0'] l then none
  else
    let n := digitsVal l
    if n ≤ 255 then some n else none

/-- Parse a strict dotted-quad IPv4 address to its 32-bit value.  Returns
`none` for anything `ipaddress.ip_address` would reject as IPv4 — including
IPv6 literals, which additionally can never lie in the configured IPv4
networks, so the callers below treat both cases alike. -/
def parseIPv4 (s : String) : Option Nat :=
  match (s.data.splitOn '.').map parseOctet with
  | [some a, some b, some c, some d] => some (((a * 256 + b) * 256 + c) * 256 + d)
  | _ => none

/-- `v` lies in the IPv4 network with network address `net` and prefix
length `p` (model of `ip in ipaddress.ip_network(...)`). -/
def inNet (v net p : Nat) : Bool := v / 2 ^ (32 - p) == net / 2 ^ (32 - p)

/-- `ALLOWED_NETWORKS` of `app.py`: network address and prefix length. -/
def ALLOWED_NETWORKS : List (Nat × Nat) :=
  [(127 * 16777216, 8), (10 * 16777216, 8),
   ((172 * 256 + 16) * 65536, 12), ((192 * 256 + 168) * 65536, 16)]

/-- `app.py` `is_ip_allowed`: the string parses as an IP address and lies in
one of the private/loopback networks. -/
def is_ip_allowed (ipStr : String) : Bool :=
  match parseIPv4 ipStr with
  | none => false
  | some v => ALLOWED_NETWORKS.any (fun np => inNet v np.1 np.2)

/-! ## The `/fetch` gateway of `app.py`

`resolve_hostname` wraps `socket.getaddrinfo` and is pure glue around the OS
resolver; it is passed in as an oracle `resolver : String → List String`
returning the resolved addresses (the `except` branch of the Python helper
corresponds to the oracle returning `[]`).  The decision of the handler up to
the point where the outbound HTTP request would be issued is a pure function
of the request and that oracle; `Outcome.forward t` marks the handler reaching
the `requests.get/post` call with target `t`, everything else is a response
produced without any outbound request (`serverError` stands for an uncaught
Python exception, surfaced by Flask as a 500). -/

/-- `ALLOWED_HOSTNAMES` of `app.py` (a `set`; membership is string equality). -/
def ALLOWED_HOSTNAMES : List String :=
  ["res.cloudinary.com", "picsum.photos", "109.205.181.210"]

inductive Method where
  | GET | POST | OPTIONS
deriving Repr, DecidableEq

/-- A request to `/fetch` (`/fetch/<subpath>` sets `subpath`; the `url` query
parameter, when present, is `urlParam`). -/
structure FetchReq where
  method : Method
  subpath : Option String
  urlParam : Option String
deriving Repr, DecidableEq

/-- Result of computing `target_url` (lines 132-145 of `app.py`). -/
inductive TargetRes where
  | missing
  | exn
  | target (t : String)
deriving Repr, DecidableEq

/-- Truthiness of the optional strings involved (`if subpath:` /
`elif raw_url:`): present and non-empty. -/
def truthy : Option String → Bool
  | none => false
  | some s => s ≠ ""

/-- Lines 132-145 of `app.py`: determine `target_url`.  For an explicit
`?url=` parameter the string is stripped and percent-decoded, then the
admin-service rewrite is applied: when `parsed.hostname in ("109.205.181.210")`
— a *substring* test against that single string, since the parenthesised
expression is a `str`, not a tuple — and the port is 9000 or absent, the
netloc is replaced by `admin_api:9000` and the URL re-assembled.  A `None`
hostname makes the membership test raise `TypeError`, and a malformed port
makes `parsed.port` raise `ValueError`; both are uncaught (`TargetRes.exn`). -/
def fetchTarget (req : FetchReq) : TargetRes :=
  if truthy req.subpath then
    .target ("http://admin_api:9000/" ++ req.subpath.getD "")
  else if truthy req.urlParam then
    let t := pyUnquote (pyStrip (req.urlParam.getD ""))
    match pyUrlsplit t with
    | .error _ => .exn
    | .ok p =>
      match pyHostname p with
      | none => .exn
      | some h =>
        if pyIn h "109.205.181.210" then
          match pyPort p with
          | .error _ => .exn
          | .ok port =>
            if port == some 9000 || port == none then
              .target (pyUrlunsplit { p with netloc := "admin_api:9000" })
            else .target t
        else .target t
  else .missing

/-- Outcome of the `/fetch` handler up to the outbound call. -/
inductive Outcome where
  | options204
  | reject (status : Nat)
  | serverError
  | forward (t : String)
deriving Repr, DecidableEq

/-- The resolver result folded as line 155 of `app.py` does:
`all(is_ip_allowed(ip) for ip in resolved_ips) if resolved_ips else False`. -/
def ipsAllowed (ips : List String) : Bool :=
  if ips.isEmpty then false else ips.all is_ip_allowed

/-- Lines 147-157 of `app.py`: validate `target_url` and either reject
(400 invalid scheme/hostname, 404 host not allowed) or proceed to the
outbound request. -/
def validateTarget (resolver : String → List String) (t : String) : Outcome :=
  match pyUrlsplit t with
  | .error _ => .serverError
  | .ok p =>
    match pyHostname p with
    | none => .reject 400
    | some h =>
      if !(p.scheme == "http" || p.scheme == "https") then .reject 400
      else if !(ALLOWED_HOSTNAMES.contains h) && !(ipsAllowed (resolver h)) then
        .reject 404
      else .forward t

/-- The `/fetch` handler of `app.py` up to the point of the outbound HTTP
request: OPTIONS short-circuits with 204, a missing target is a 400, and an
accepted target is forwarded. -/
def fetchDecision (resolver : String → List String) (req : FetchReq) : Outcome :=
  if req.method == .OPTIONS then .options204
  else
    match fetchTarget req with
    | .missing => .reject 400
    | .exn => .serverError
    | .target t => validateTarget resolver t

/-- Hostname of a URL string as the validation step sees it. -/
def hostnameOf (t : String) : Option String :=
  match pyUrlsplit t with
  | .error _ => none
  | .ok p => pyHostname p

/-! ## The render service (`admin_api.py`)

The Jinja2 engine is third-party code, so the two `/render` handlers are
parameterised over a rendering oracle `RenderOracle` standing for
`insecure_env.from_string(src).render(**ctx)`: it receives the context and the
template source and returns the rendered text, or the message of the exception
raised (`from_string` and `render` both run inside the handler's `try`).
For the concrete end-to-end claims a small executable model `jinjaModel` of
the engine instantiates the oracle; it covers exactly the template fragment
the claims exercise — literal text, `\x7b\x7b a*b \x7d\x7d` integer products,
integer literals and context-variable interpolation — and signals an error on
any other Jinja construct. -/

def MAX_TPL_BYTES : Nat := 64 * 1024

def LOG_TRUNCATE : Nat := 2000

def ALLOWED_IMAGE_SCHEMES : List String := ["http", "https"]

def BANNED_HOSTNAMES : List String := ["localhost", "127.0.0.1", "::1"]

def FAKE_FLAG : String := "FLAG\x7bnon_root_rce_obtained\x7d"

/-- `admin_api.py` `is_safe_url`: non-empty, parseable, `http`/`https` scheme,
hostname present and not in the ban-list (the `try` around `urlparse` maps a
parse error to `False`). -/
def is_safe_url (url : String) : Bool :=
  if url == "" then false
  else
    match pyUrlsplit url with
    | .error _ => false
    | .ok p =>
      if !(ALLOWED_IMAGE_SCHEMES.contains p.scheme) then false
      else
        match pyHostname p with
        | none => false
        | some h => !(BANNED_HOSTNAMES.contains h)

/-- `admin_api.py` `get_template_context` (`server_time` is the formatted
clock reading, passed in). -/
def get_template_context (imageUrl : Option String) (serverTime : String) :
    List (String × String) :=
  [("username", "guest_user"),
   ("image_url",
     match imageUrl with
     | some u => if u == "" then "https://example.org/sample.jpg" else u
     | none => "https://example.org/sample.jpg"),
   ("server_time", serverTime),
   ("notice", "This is an intentionally vulnerable sandbox for CTF use.")]

/-- The request data a `/render` POST handler reads, together with the clock
readings taken during the request (`datetime.utcnow().isoformat()` for the
marker file, the `strftime` form for the context). -/
structure RenderIn where
  formTemplate : Option String
  rawBody : String
  formImageUrl : Option String
  remoteAddr : String
  nowIso : String
  serverTime : String
deriving Repr, DecidableEq

/-- Python `a or b` on an optional string versus a default (`None` and `""`
are falsy). -/
def pyOrElse (a : Option String) (b : String) : String :=
  match a with
  | some s => if s == "" then b else s
  | none => b

/-- `raw = request.form.get("template") or request.get_data(as_text=True) or ""`:
the form field when present and non-empty, else the raw request body, else
the empty string (which the second fallback already yields). -/
def rawOf (inp : RenderIn) : String := pyOrElse inp.formTemplate inp.rawBody

/-- `image_url = request.form.get("image_url") or None`, then
`if image_url and not is_safe_url(image_url): image_url = None`. -/
def effImage (f : Option String) : Option String :=
  match f with
  | none => none
  | some u => if u == "" then none else if is_safe_url u then some u else none

/-- The logged submission line: first 2000 characters, newlines escaped. -/
def logLineOf (raw : String) : String :=
  pyReplace ⟨raw.data.take LOG_TRUNCATE⟩ "\n" "\\n"

/-- Oracle for `insecure_env.from_string(src).render(**ctx)`. -/
def RenderOracle : Type := List (String × String) → String → Except String String

/-- The surrounding HTML of the `/render` preview response (the `resp_html`
f-string of `admin_api.py`). -/
def htmlWrap (rendered : String) : String :=
  "\n        <!doctype html><html><head><meta charset=\"utf-8\"><title>Rendered Preview</title></head>\n        <body>\n          <h2>Rendered output</h2>\n          <div style=\"padding:12px;border:1px solid #ddd;background:#fff\">"
  ++ rendered ++
  "</div>\n          <hr>\n          <p><a href=\"/render\">Back to template preview</a></p>\n        </body></html>\n        "

/-- Result of `POST /render`: response status and body, the lines appended to
the `fake_flag_retrieved.txt` status file, and the submission-log line. -/
structure PostHtmlOut where
  status : Nat
  body : String
  flagAppends : List String
  logLine : Option String
deriving Repr, DecidableEq

/-- `admin_api.py` `render_page_post` (`POST /render`): size check, image-URL
validation, logging, rendering, and — only on this route — the fake-flag
marker check that appends `"<remote-addr> <iso-timestamp>\n"` to the status
file and tags the preview. -/
def render_page_post (render : RenderOracle) (inp : RenderIn) : PostHtmlOut :=
  let raw := rawOf inp
  if raw.utf8ByteSize > MAX_TPL_BYTES then
    { status := 413, body := "Template too large", flagAppends := [], logLine := none }
  else
    let imageUrl := effImage inp.formImageUrl
    let logged := logLineOf raw
    let ctx := get_template_context imageUrl inp.serverTime
    match render ctx raw with
    | .error e =>
      { status := 400, body := "Template error: " ++ e, flagAppends := [],
        logLine := some logged }
    | .ok rendered =>
      if pyIn FAKE_FLAG rendered then
        { status := 200,
          body := htmlWrap (rendered ++ "\n\n-- Fake flag observed by server --"),
          flagAppends := [inp.remoteAddr ++ " " ++ inp.nowIso ++ "\n"],
          logLine := some logged }
      else
        { status := 200, body := htmlWrap rendered, flagAppends := [],
          logLine := some logged }

/-- JSON body of a `POST /render/json` response. -/
inductive JsonBody where
  | rendered (s : String)
  | err (s : String)
deriving Repr, DecidableEq

/-- Result of `POST /render/json`. -/
structure PostJsonOut where
  status : Nat
  body : JsonBody
  flagAppends : List String
  logLine : Option String
deriving Repr, DecidableEq

/-- `admin_api.py` `render_page_post_json` (`POST /render/json`).  Note that
this handler never parses the request body as JSON — `request.form` is empty
for a JSON POST, so the whole raw body is used as the template source — and,
unlike `render_page_post`, it contains no fake-flag marker check, so its
`flagAppends` is always empty. -/
def render_page_post_json (render : RenderOracle) (inp : RenderIn) : PostJsonOut :=
  let raw := rawOf inp
  if raw.utf8ByteSize > MAX_TPL_BYTES then
    { status := 413, body := .err "Template too large", flagAppends := [], logLine := none }
  else
    let imageUrl := effImage inp.formImageUrl
    let logged := logLineOf raw
    let ctx := get_template_context imageUrl inp.serverTime
    match render ctx raw with
    | .ok rendered =>
      { status := 200, body := .rendered rendered, flagAppends := [],
        logLine := some logged }
    | .error e =>
      { status := 400, body := .err e, flagAppends := [], logLine := some logged }

/-! ### Executable model of the Jinja2 fragment used by the claims -/

/-- Trim ASCII whitespace at both ends. -/
def trimWsL (l : List Char) : List Char :=
  ((l.dropWhile isPyWs).reverse.dropWhile isPyWs).reverse

/-- All-digit, non-empty literal. -/
def parseNatL (l : List Char) : Option Nat :=
  if !l.isEmpty && l.all isDigitCh then some (digitsVal l) else none

/-- Identifier character. -/
def isIdentCh (c : Char) : Bool := isAlphaCh c || isDigitCh c || c == '_'

/-- Decimal digits of `n`, most significant first (structural fuel variant so
the kernel can evaluate it). -/
def natDigits : Nat → Nat → List Char
  | 0, _ => []
  | fuel + 1, n =>
    if n < 10 then [Char.ofNat (48 + n)]
    else natDigits fuel (n / 10) ++ [Char.ofNat (48 + n % 10)]

/-- Decimal representation of `n`. -/
def natReprL (n : Nat) : List Char := natDigits (n + 1) n

/-- Context lookup; an undefined variable renders as the empty string
(Jinja's default `Undefined`). -/
def lookupCtx (ctx : List (String × String)) (k : String) : String :=
  match ctx.find? (fun kv => kv.1 == k) with
  | some kv => kv.2
  | none => ""

/-- Evaluate one `\x7b\x7b ... \x7d\x7d` expression of the modelled fragment:
an integer literal, a product of two integer literals, or a context
variable. -/
def evalJinjaExpr (ctx : List (String × String)) (e : List Char) :
    Option (List Char) :=
  let t := trimWsL e
  match parseNatL t with
  | some n => some (natReprL n)
  | none =>
    match splitFirst '*' t with
    | (a, some b) =>
      match parseNatL (trimWsL a), parseNatL (trimWsL b) with
      | some x, some y => some (natReprL (x * y))
      | _, _ => none
    | (_, none) =>
      if !t.isEmpty && t.all isIdentCh && !(isDigitCh (t.headD ' ')) then
        some (lookupCtx ctx ⟨t⟩).data
      else none

/-- First index at which `pat` occurs in the list. -/
def findSubIdx (pat : List Char) : List Char → Option Nat
  | [] => if pat.isEmpty then some 0 else none
  | c :: cs =>
    if startsW pat (c :: cs) then some 0 else (findSubIdx pat cs).map (· + 1)

/-- Fuel-driven scanner of the modelled Jinja fragment: literal text plus
`\x7b\x7b expr \x7d\x7d` interpolations; other Jinja constructs (statements,
comments, unclosed or unsupported expressions) are rendering errors. -/
def jinjaAux (ctx : List (String × String)) : Nat → List Char → Except String (List Char)
  | _, [] => .ok []
  | 0, _ => .error "out of fuel"
  | fuel + 1, c :: cs =>
    if c == '\x7b' then
      match cs with
      | d :: rest =>
        if d == '\x7b' then
          match findSubIdx ['\x7d', '\x7d'] rest with
          | none => .error "unexpected end of template"
          | some i =>
            match evalJinjaExpr ctx (rest.take i) with
            | none => .error "unsupported expression"
            | some v => do
              let tail ← jinjaAux ctx fuel (rest.drop (i + 2))
              pure (v ++ tail)
        else if d == '%' || d == '#' then .error "unsupported construct"
        else do
          let tail ← jinjaAux ctx fuel cs
          pure (c :: tail)
      | [] => do
        let tail ← jinjaAux ctx fuel cs
        pure (c :: tail)
    else do
      let tail ← jinjaAux ctx fuel cs
      pure (c :: tail)

/-- Executable model of the Jinja2 engine on the restricted fragment;
instantiates `RenderOracle` for the concrete end-to-end claims. -/
def jinjaModel : RenderOracle := fun ctx src =>
  (jinjaAux ctx src.data.length src.data).map (⟨·⟩)

/-! ## The `/feedback` endpoint of `app.py` -/

/-- Model of `html.escape(s)` with the default `quote=True`: the five
replacements in CPython's order. -/
def html_escape (s : String) : String :=
  let s := pyReplace s "&" "&amp;"
  let s := pyReplace s "<" "&lt;"
  let s := pyReplace s ">" "&gt;"
  let s := pyReplace s "\"" "&quot;"
  pyReplace s "\x27" "&#x27;"

/-- Response of the feedback handler: status and the lines appended to the
feedback log (empty when nothing was persisted). -/
structure FeedbackRes where
  status : Nat
  written : List String
deriving Repr, DecidableEq

/-- The escaped and newline-normalised feedback text. -/
def feedbackSafe (raw : Option String) : String :=
  pyReplace (pyReplace (html_escape (pyStrip (raw.getD ""))) "\n" "\\n") "\r" "\\r"

/-- The single log line the handler appends. -/
def feedbackEntry (raw : Option String) (ts ip ua : String) : String :=
  "[" ++ ts ++ "] IP=" ++ ip ++ " UA=" ++ ua ++ " MSG=" ++ feedbackSafe raw ++ "\n"

/-- `app.py` `feedback` (`POST /feedback`): empty or whitespace-only input is
a 400; otherwise the text is HTML-escaped, its newlines and carriage returns
replaced by literal `\n`/`\r`, and one timestamped, IP- and UA-tagged line is
appended — a failing write (`writeOk = false`, the `except` branch) is a 500
with nothing persisted, a successful one redirects with 303. -/
def feedback (raw : Option String) (ts ip ua : String) (writeOk : Bool) :
    FeedbackRes :=
  let text := pyStrip (raw.getD "")
  if text == "" then { status := 400, written := [] }
  else if writeOk then
    { status := 303, written := [feedbackEntry raw ts ip ua] }
  else { status := 500, written := [] }

/-- `replAux` on the single-character pattern `[c]` with a replacement free of
`c` eliminates every occurrence of `c`. -/
theorem replAux_single_not_mem (c : Char) (rep : List Char) (hrep : c ∉ rep) :
    ∀ fuel l, l.length ≤ fuel → c ∉ replAux [c] rep fuel l := by
  intro fuel
  induction fuel with
  | zero =>
    intro l hl
    have : l = [] := List.length_eq_zero.mp (Nat.le_zero.mp hl)
    subst this
    simp [replAux]
  | succ n ih =>
    intro l hl
    cases l with
    | nil => simp [replAux]
    | cons d ds =>
      have hds : ds.length ≤ n := Nat.le_of_succ_le_succ hl
      simp only [replAux]
      by_cases hd : startsW [c] (d :: ds) = true
      · rw [if_pos (by simp [hd])]
        intro hmem
        rcases List.mem_append.mp hmem with h | h
        · exact hrep h
        · exact ih _ (by simpa using hds) h
      · rw [if_neg (by simp [hd])]
        intro hmem
        rcases List.mem_cons.mp hmem with h | h
        · apply hd
          subst h
          simp [startsW]
        · exact ih ds hds h

/-- `replAux` cannot introduce a character that occurs neither in the input
nor in the replacement. -/
theorem replAux_not_mem (pat rep : List Char) (c : Char) (hrep : c ∉ rep) :
    ∀ fuel l, c ∉ l → c ∉ replAux pat rep fuel l := by
  intro fuel
  induction fuel with
  | zero =>
    intro l hl
    cases l with
    | nil => simp [replAux]
    | cons d ds => simpa [replAux] using hl
  | succ n ih =>
    intro l hl
    cases l with
    | nil => simp [replAux]
    | cons d ds =>
      simp only [replAux]
      split
      · intro hmem
        rcases List.mem_append.mp hmem with h | h
        · exact hrep h
        · exact ih _ (fun hx => hl (List.mem_of_mem_drop hx)) h
      · intro hmem
        rcases List.mem_cons.mp hmem with h | h
        · exact hl (h ▸ List.mem_cons_self d ds)
        · exact ih ds (fun hx => hl (List.mem_cons_of_mem d hx)) h

/-- The newline-normalised feedback text contains no newline character. -/
theorem feedbackSafe_no_newline (raw : Option String) :
    '\n' ∉ (feedbackSafe raw).data := by
  unfold feedbackSafe
  apply replAux_not_mem _ _ _ (by decide)
  apply replAux_single_not_mem _ _ (by decide)
  exact le_refl _

/-! ## `GET /templates/get` of `admin_api.py` -/

/-- Model of `os.path.basename` (POSIX): everything after the last `/`. -/
def pyBasename (s : String) : String := ⟨afterLast '/' s.data⟩

/-- Model of `os.path.join` (POSIX, two arguments). -/
def pyJoin (a b : String) : String :=
  if startsW ['/'] b.data then b
  else if a == "" || a.data.getLast? == some '/' then a ++ b
  else a ++ "/" ++ b

/-- Response of `templates_get`: 404, or the file served out of the
templates directory by `send_from_directory(dir, file)`. -/
inductive TemplatesGetRes where
  | notFound
  | serve (dir file : String)
deriving Repr, DecidableEq

/-- `admin_api.py` `templates_get`: take the basename of the requested name,
resolve it inside the templates directory, 404 unless it is a regular file
there (`os.path.isfile` is the oracle `isfile`). -/
def templates_get (isfile : String → Bool) (templatesDir name : String) :
    TemplatesGetRes :=
  let safe_name := pyBasename name
  let template_path := pyJoin templatesDir safe_name
  if isfile template_path then .serve templatesDir safe_name else .notFound

/-- A basename contains no path separator. -/
theorem pyBasename_no_slash (s : String) : countCh '/' (pyBasename s) = 0 := by
  unfold countCh pyBasename afterLast
  rw [List.count_eq_zero]
  intro hmem
  rw [List.mem_reverse] at hmem
  have := List.mem_takeWhile_imp hmem
  simp at this

/-- Helper: with an explicit non-empty `?url=` parameter whose decoded form
parses with hostname `h`, a substring of `"109.205.181.210"`, and port 9000 or
absent, `fetchTarget` produces the URL re-assembled around `admin_api:9000`. -/
theorem fetchTarget_rewrites (m : Method) (raw : String) (p : PySplit)
    (h : String) (po : Option Nat)
    (hraw : raw ≠ "")
    (hsplit : pyUrlsplit (pyUnquote (pyStrip raw)) = .ok p)
    (hhost : pyHostname p = some h)
    (hsub : pyIn h "109.205.181.210" = true)
    (hport : pyPort p = .ok po)
    (hpo : po = some 9000 ∨ po = none) :
    fetchTarget ⟨m, none, some raw⟩ =
      .target (pyUrlunsplit { p with netloc := "admin_api:9000" }) := by
  unfold fetchTarget
  rcases hpo with hpo | hpo <;>
    simp [truthy, hraw, hsplit, hhost, hsub, hport, hpo]

/-- Helper: with an explicit non-empty `?url=` parameter whose decoded form
parses with a hostname that is not a substring of `"109.205.181.210"`, the
target is the decoded URL unchanged. -/
theorem fetchTarget_no_rewrite (m : Method) (raw : String) (p : PySplit)
    (h : String)
    (hraw : raw ≠ "")
    (hsplit : pyUrlsplit (pyUnquote (pyStrip raw)) = .ok p)
    (hhost : pyHostname p = some h)
    (hsub : pyIn h "109.205.181.210" = false) :
    fetchTarget ⟨m, none, some raw⟩ = .target (pyUnquote (pyStrip raw)) := by
  unfold fetchTarget
  simp [truthy, hraw, hsplit, hhost, hsub]


/-! ## The HTML rewrite of proxied `/fetch` responses (`app.py` lines 193-296)

The handler decodes an HTML response body and applies five textual rewrites in
order: (1) inject a `<base>` tag after the first opening `<head>` tag
(`re.sub` with `count=1`); (2) route known static-asset references back
through the gateway; (3) replace `None` by `null` inside `<script>` elements;
(4) remove inline scripts that install a `window.onload` handler; (5) splice a
fixed Swagger-initialisation script before every `</body>`.  Each regex is
modelled by a direct scanner with the same match semantics (leftmost match,
lazy/greedy pieces resolved as the pattern dictates, scanning resuming after
each match). -/

/-- Case-insensitive `startsW` (ASCII case folding, matching `re.IGNORECASE`
on this ASCII-only material). -/
def startsWCi : List Char → List Char → Bool
  | [], _ => true
  | _ :: _, [] => false
  | c :: cs, d :: ds => lowerCh c == lowerCh d && startsWCi cs ds

/-- First index of a case-insensitive occurrence of `pat`. -/
def findSubIdxCi (pat : List Char) : List Char → Option Nat
  | [] => if pat.isEmpty then some 0 else none
  | c :: cs =>
    if startsWCi pat (c :: cs) then some 0 else (findSubIdxCi pat cs).map (· + 1)

/-- Case-insensitive substring occurrence. -/
def containsLCi (pat l : List Char) : Bool := (findSubIdxCi pat l).isSome

/-- Length of a match of `(?i)<head\b[^>]*>` anchored at the head of `l`:
the literal `<head`, a non-word character boundary, then everything up to and
including the next `>`. -/
def headMatchLen (l : List Char) : Option Nat :=
  if startsWCi ['<', 'h', 'e', 'a', 'd'] l then
    let rest := l.drop 5
    let bOk := match rest with
      | [] => true
      | c :: _ => !isIdentCh c
    if bOk then
      match findIdx '>' rest with
      | none => none
      | some j => some (5 + j + 1)
    else none
  else none

/-- Leftmost match of the opening-head-tag pattern: `(pre, tag, rest)` with
the input equal to `pre ++ tag ++ rest` and no match starting inside `pre`. -/
def headFindAux : Nat → List Char → Option (List Char × List Char × List Char)
  | _, [] => none
  | 0, _ => none
  | fuel + 1, c :: cs =>
    match headMatchLen (c :: cs) with
    | some k => some ([], (c :: cs).take k, (c :: cs).drop k)
    | none =>
      match headFindAux fuel cs with
      | some (pre, m, rest) => some (c :: pre, m, rest)
      | none => none

/-- Leftmost opening-head-tag match of a string. -/
def headFind (s : String) : Option (String × String × String) :=
  match headFindAux s.data.length s.data with
  | some (pre, m, rest) => some (⟨pre⟩, ⟨m⟩, ⟨rest⟩)
  | none => none

/-- The injected tag (`base_tag` in `app.py`). -/
def BASE_TAG : String := "<base href=\"/fetch/\" />"

/-- Step (1): `re.sub(r'(?i)<head\b[^>]*>', lambda m: m.group(0) + base_tag,
text, count=1)` — insert the base tag right after the first opening head tag,
or leave the text unchanged when there is none. -/
def injectBase (s : String) : String :=
  match headFind s with
  | some (pre, m, rest) => pre ++ m ++ BASE_TAG ++ rest
  | none => s

/-- Quote characters of the static-asset pattern. -/
def quoteCh (c : Char) : Bool := c == '"' || c == '\x27'

/-- Match a literal at the head of the input, returning the remainder. -/
def tryLit (lit l : List Char) : Option (List Char) :=
  if startsW lit l then some (l.drop lit.length) else none

/-- The asset-directory alternatives of the pattern
`(?:swagger|flasgger_static|static)`. -/
def staticDirs : List (List Char) :=
  ["swagger".data, "flasgger_static".data, "static".data]

/-- Match `(?P<prefix>(?:src|href)=["'])(?P<url>(?:swagger|flasgger_static|static)/[^"']+)`
anchored at the head of `l`: returns the prefix group, the url group and the
remainder (the `[^"']+` run is greedy and must be non-empty). -/
def staticMatchAt (l : List Char) : Option (List Char × List Char × List Char) :=
  let tryKw := fun (kw : List Char) =>
    match tryLit kw l with
    | none => none
    | some r1 =>
      match r1 with
      | [] => none
      | q :: r2 =>
        if quoteCh q then
          let tryDir := fun (dir : List Char) =>
            match tryLit (dir ++ ['/']) r2 with
            | none => none
            | some r3 =>
              let chunk := r3.takeWhile (fun c => !quoteCh c)
              if chunk.isEmpty then none
              else some (kw ++ [q], dir ++ ['/'] ++ chunk, r3.drop chunk.length)
          match tryDir "swagger".data with
          | some res => some res
          | none =>
            match tryDir "flasgger_static".data with
            | some res => some res
            | none => tryDir "static".data
        else none
  match tryKw "src=".data with
  | some res => some res
  | none => tryKw "href=".data

/-- `str.lstrip('/')`. -/
def lstripSlash (l : List Char) : List Char := l.dropWhile (· == '/')

/-- Step (2): rewrite every static-asset reference to go through `/fetch/`
(the replacement is `prefix + '/fetch/' + url.lstrip('/')`). -/
def rewriteStaticAux : Nat → List Char → List Char
  | _, [] => []
  | 0, l => l
  | fuel + 1, c :: cs =>
    match staticMatchAt (c :: cs) with
    | some (pre, url, rest) =>
      pre ++ "/fetch/".data ++ lstripSlash url ++ rewriteStaticAux fuel rest
    | none => c :: rewriteStaticAux fuel cs

/-- Step (2) on strings. -/
def rewriteStatic (s : String) : String := ⟨rewriteStaticAux s.data.length s.data⟩

/-- Step (3): `re.sub(r"<script.*?>.*?</script>", ..., DOTALL | IGNORECASE)`
replacing `None` by `null` (case-sensitively) inside each matched script
element.  A match needs `<script`, a later `>`, and a later `</script>`; the
lazy pieces take the nearest ones. -/
def scriptNoneAux : Nat → List Char → List Char
  | _, [] => []
  | 0, l => l
  | fuel + 1, c :: cs =>
    let l := c :: cs
    let noMatch := fun (_ : Unit) => c :: scriptNoneAux fuel cs
    if startsWCi "<script".data l then
      match findIdx '>' (l.drop 7) with
      | none => noMatch ()
      | some g =>
        match findSubIdxCi "</script>".data (l.drop (7 + g + 1)) with
        | none => noMatch ()
        | some e =>
          let len := 7 + g + 1 + e + 9
          let m := l.take len
          replAux "None".data "null".data m.length m ++
            scriptNoneAux fuel (l.drop len)
    else noMatch ()

/-- Step (3) on strings. -/
def scriptNoneNull (s : String) : String := ⟨scriptNoneAux s.data.length s.data⟩

/-- Step (4): `re.sub(r'(<script(?!.*src).*?window\.onload.*?</script>)', '',
DOTALL | IGNORECASE)` — delete each inline `window.onload` script.  The
negative lookahead right after `<script` fails whenever `src` occurs anywhere
in the rest of the text (DOTALL `.*`), in which case the scan moves on by one
character. -/
def stripOnloadAux : Nat → List Char → List Char
  | _, [] => []
  | 0, l => l
  | fuel + 1, c :: cs =>
    let l := c :: cs
    let noMatch := fun (_ : Unit) => c :: stripOnloadAux fuel cs
    if startsWCi "<script".data l then
      let rest := l.drop 7
      if containsLCi "src".data rest then noMatch ()
      else
        match findSubIdxCi "window.onload".data rest with
        | none => noMatch ()
        | some w =>
          match findSubIdxCi "</script>".data (rest.drop (w + 13)) with
          | none => noMatch ()
          | some e => stripOnloadAux fuel (l.drop (7 + w + 13 + e + 9))
    else noMatch ()

/-- Step (4) on strings. -/
def stripOnload (s : String) : String := ⟨stripOnloadAux s.data.length s.data⟩

/-- The fixed Swagger-initialisation script spliced in by step (5): the
`custom_swagger_script` f-string of `app.py` with its interpolations
expanded. -/
def customSwaggerScript : String :=
  "\n            <script>\n            const swagger_config = JSON.parse(`null`);\n            window.onload = function () \x7b\n                const url = \"http://109.205.181.210:12000/openapi.json\"; // Force Swagger to use our proxy URL\n\n                // Begin Swagger UI call region\n                window.ui = SwaggerUIBundle(\x7b\n                    url: url,\n                    dom_id: \"#swagger-ui\",\n                    deepLinking: false,\n                    presets: [\n                        SwaggerUIBundle.presets.apis,\n                        SwaggerUIStandalonePreset\n                    ],\n                    plugins: [\n                        SwaggerUIBundle.plugins.DownloadUrl\n                    ],\n                    layout: \"StandaloneLayout\",\n                    requestInterceptor: (req) => \x7b\n                        const backend = \"http://109.205.181.210:9000\";\n\n                        if (req.url.startsWith(\"/fetch?url=\") || req.url.includes(\"openapi\")) \x7b\n                            return req;\n                        \x7d\n\n                        let targetUrl = req.url;\n                        if (req.url.startsWith(\"/\")) \x7b\n                            targetUrl = backend + req.url;\n                        \x7d\n                        targetUrl = targetUrl.replace(\":12000\", \":9000\");\n\n                        // Rewrite final request to go through our proxy\n                        req.url = \"/fetch?url=\" + encodeURIComponent(targetUrl);\n\n                        return req;\n                    \x7d,\n                    showExtensions: true,\n                    showCommonExtensions: true,\n                    ...swagger_config\n                \x7d);\n                // End Swagger UI call region\n\n                const oauthConfig = null;\n                if (oauthConfig != null) \x7b\n                    window.ui.initOAuth(\x7b\n                        clientId: oauthConfig.clientId,\n                        clientSecret: oauthConfig.clientSecret,\n                        realm: oauthConfig.realm,\n                        appName: oauthConfig.appName,\n                        scopeSeparator: oauthConfig.scopeSeparator,\n                        scopes: oauthConfig.scopes,\n                        additionalQueryStringParams: oauthConfig.additionalQueryStringParams,\n                        usePkceWithAuthorizationCodeGrant: oauthConfig.usePkceWithAuthorizationCodeGrant\n                    \x7d);\n                \x7d\n\n                // Force \"Download URL\" input to stay fixed\n                const input = document.querySelector(\".download-url-input\");\n                if (input) input.value = url;\n            \x7d;\n            </script>\n            "

/-- Step (5): `text.replace("</body>", custom_swagger_script + "</body>")`. -/
def appendSwagger (s : String) : String :=
  pyReplace s "</body>" (customSwaggerScript ++ "</body>")

/-- The complete HTML rewrite applied to a proxied `text/html` body. -/
def htmlProxyRewrite (body : String) : String :=
  appendSwagger (stripOnload (scriptNoneNull (rewriteStatic (injectBase body))))

/-- Lines 190-296 of `app.py`: the body returned to the caller — rewritten
when the response `Content-Type` contains `text/html` (case-insensitively),
untouched otherwise. -/
def fetchBodyTransform (contentType body : String) : String :=
  if pyIn "text/html" (pyLower contentType) then htmlProxyRewrite body else body

/-- Rebuilding a string from its character list is the identity. -/
theorem mk_data_eq (s : String) : String.mk s.data = s := by
  cases s
  rfl

/-- `replAux` is the identity when the pattern does not occur. -/
theorem replAux_id_of_not_contains (pat rep : List Char) :
    ∀ fuel l, containsL pat l = false → replAux pat rep fuel l = l := by
  intro fuel
  induction fuel with
  | zero =>
    intro l _
    cases l <;> rfl
  | succ n ih =>
    intro l hl
    cases l with
    | nil => rfl
    | cons d ds =>
      simp only [containsL, Bool.or_eq_false_iff] at hl
      simp only [replAux]
      rw [if_neg (by simp [hl.1])]
      rw [ih ds hl.2]

/-- `str.replace` leaves a string without the pattern untouched. -/
theorem pyReplace_id_of_not_in (s pat rep : String)
    (h : pyIn pat s = false) : pyReplace s pat rep = s := by
  unfold pyReplace
  rw [replAux_id_of_not_contains _ _ _ _ h, mk_data_eq]

/-- The leftmost head-tag match decomposes its input. -/
theorem headFindAux_decomp :
    ∀ (fuel : Nat) (l pre m rest : List Char),
      headFindAux fuel l = some (pre, m, rest) → l = pre ++ m ++ rest := by
  intro fuel
  induction fuel with
  | zero =>
    intro l pre m rest h
    cases l <;> simp [headFindAux] at h
  | succ n ih =>
    intro l pre m rest h
    cases l with
    | nil => simp [headFindAux] at h
    | cons c cs =>
      simp only [headFindAux] at h
      cases hm : headMatchLen (c :: cs) with
      | some k =>
        rw [hm] at h
        simp only [Option.some.injEq, Prod.mk.injEq] at h
        obtain ⟨h1, h2, h3⟩ := h
        subst h1
        subst h2
        subst h3
        simp
      | none =>
        rw [hm] at h
        cases hrec : headFindAux n cs with
        | some trip =>
          obtain ⟨pre', m', rest'⟩ := trip
          rw [hrec] at h
          simp only [Option.some.injEq, Prod.mk.injEq] at h
          obtain ⟨h1, h2, h3⟩ := h
          subst h1
          subst h2
          subst h3
          have := ih cs pre' m' rest' hrec
          simp [this]
        | none =>
          rw [hrec] at h
          simp at h

/-- The string-level head-tag match decomposes its input. -/
theorem headFind_decomp (s pre m rest : String)
    (h : headFind s = some (pre, m, rest)) : s = pre ++ m ++ rest := by
  unfold headFind at h
  cases haux : headFindAux s.data.length s.data with
  | none => rw [haux] at h; simp at h
  | some trip =>
    obtain ⟨pre', m', rest'⟩ := trip
    rw [haux] at h
    simp only [Option.some.injEq, Prod.mk.injEq] at h
    obtain ⟨h1, h2, h3⟩ := h
    have hdec := headFindAux_decomp _ _ _ _ _ haux
    subst h1
    subst h2
    subst h3
    rw [← mk_data_eq s, hdec]
    rfl

/-- The base-tag injection on a body with an opening head tag is exactly one
insertion right after that tag. -/
theorem injectBase_eq (s pre m rest : String)
    (h : headFind s = some (pre, m, rest)) :
    injectBase s = pre ++ m ++ BASE_TAG ++ rest := by
  unfold injectBase
  rw [h]

end Ctf

namespace Claims

open Ctf

/-- **C1.** For every `/fetch` request (GET or POST) whose computed target URL
has a hostname outside the static allow-list and whose resolved addresses are
not all private/loopback (including failed or empty resolution,
`ipsAllowed = false`), the gateway answers with a 400 or 404 rejection — in
particular `Outcome.forward`, the only case in which the outbound HTTP request
is made, is not reached. -/
theorem fetch_rejects_disallowed_host (resolver : String → List String)
    (req : FetchReq) (t h : String)
    (hm : req.method ≠ .OPTIONS)
    (ht : fetchTarget req = .target t)
    (hh : hostnameOf t = some h)
    (hallow : ALLOWED_HOSTNAMES.contains h = false)
    (hips : ipsAllowed (resolver h) = false) :
    fetchDecision resolver req = .reject 400 ∨
      fetchDecision resolver req = .reject 404 := by
  have hm' : (req.method == Method.OPTIONS) = false := by
    cases hmm : req.method <;> simp_all
  unfold hostnameOf at hh
  cases hsp : pyUrlsplit t with
  | error e => rw [hsp] at hh; simp at hh
  | ok p =>
    rw [hsp] at hh
    simp only at hh
    unfold fetchDecision
    rw [hm', if_neg (by simp), ht]
    simp only [validateTarget, hsp, hh]
    by_cases hsc : (p.scheme == "http" || p.scheme == "https") = true
    · right; simp [hsc, hallow, hips]; simpa using hallow
    · left; simp [hsc]

/-- Witness for C1: `GET /fetch?url=http://evil.example.com/` with a resolver
returning only the public address 93.184.216.34 is rejected. -/
theorem fetch_rejects_disallowed_host_witness :
    fetchDecision (fun _ => ["93.184.216.34"])
        ⟨.GET, none, some "http://evil.example.com/"⟩ = .reject 400 ∨
      fetchDecision (fun _ => ["93.184.216.34"])
        ⟨.GET, none, some "http://evil.example.com/"⟩ = .reject 404 :=
  fetch_rejects_disallowed_host (fun _ => ["93.184.216.34"])
    ⟨.GET, none, some "http://evil.example.com/"⟩
    "http://evil.example.com/" "evil.example.com"
    (by decide) (by decide) (by decide) (by decide) (by decide)

/-- **C2 counterexample.** The claim asserts that a `?url=` target naming the
admin service by `localhost` (port 9000) has its netloc rewritten to
`admin_api:9000` before validation.  It is not: the rewrite condition tests
substring membership in the single string `"109.205.181.210"`, which
`"localhost"` fails, so the target URL is passed through unchanged with
hostname `localhost`. -/
theorem fetch_localhost_not_rewritten :
    fetchTarget ⟨.GET, none, some "http://localhost:9000/x"⟩ =
        .target "http://localhost:9000/x" ∧
      hostnameOf "http://localhost:9000/x" = some "localhost" ∧
      "localhost" ≠ "admin_api" := by
  refine ⟨by decide, by decide, by decide⟩

/-- **C2 (amended).** For an explicit `?url=` target that parses with hostname
`h` and port 9000 or no port, the netloc is rewritten to `admin_api:9000`
before validation exactly when `h` is a substring of `"109.205.181.210"` (so
for the admin IP itself, but not for `localhost`), and the allow-list/IP-range
validation then runs on the resulting URL. -/
theorem fetch_admin_rewrite_before_validation (resolver : String → List String)
    (m : Method) (raw : String) (p : PySplit) (h : String) (po : Option Nat)
    (hm : m ≠ .OPTIONS)
    (hraw : raw ≠ "")
    (hsplit : pyUrlsplit (pyUnquote (pyStrip raw)) = .ok p)
    (hhost : pyHostname p = some h)
    (hport : pyPort p = .ok po)
    (hpo : po = some 9000 ∨ po = none) :
    fetchTarget ⟨m, none, some raw⟩ =
        .target (if pyIn h "109.205.181.210" then
                   pyUrlunsplit { p with netloc := "admin_api:9000" }
                 else pyUnquote (pyStrip raw)) ∧
      fetchDecision resolver ⟨m, none, some raw⟩ =
        validateTarget resolver
          (if pyIn h "109.205.181.210" then
             pyUrlunsplit { p with netloc := "admin_api:9000" }
           else pyUnquote (pyStrip raw)) := by
  have hm' : (m == Method.OPTIONS) = false := by
    cases m <;> simp_all
  have htgt : fetchTarget ⟨m, none, some raw⟩ =
      .target (if pyIn h "109.205.181.210" then
                 pyUrlunsplit { p with netloc := "admin_api:9000" }
               else pyUnquote (pyStrip raw)) := by
    by_cases hsub : pyIn h "109.205.181.210" = true
    · rw [if_pos hsub]
      exact fetchTarget_rewrites m raw p h po hraw hsplit hhost hsub hport hpo
    · rw [if_neg hsub]
      exact fetchTarget_no_rewrite m raw p h hraw hsplit hhost
        (Bool.not_eq_true _ ▸ hsub)
  refine ⟨htgt, ?_⟩
  unfold fetchDecision
  rw [hm', if_neg (by simp), htgt]

/-- Witness for C2 (amended): `?url=http://109.205.181.210:9000/a` is
rewritten to `http://admin_api:9000/a`, and the decision is the validation of
the rewritten URL. -/
theorem fetch_admin_rewrite_before_validation_witness :
    fetchTarget ⟨.GET, none, some "http://109.205.181.210:9000/a"⟩ =
        .target (if pyIn "109.205.181.210" "109.205.181.210" then
                   pyUrlunsplit { scheme := "http", netloc := "admin_api:9000",
                                  path := "/a", query := "", fragment := "" }
                 else pyUnquote (pyStrip "http://109.205.181.210:9000/a")) ∧
      fetchDecision (fun _ => []) ⟨.GET, none, some "http://109.205.181.210:9000/a"⟩ =
        validateTarget (fun _ => [])
          (if pyIn "109.205.181.210" "109.205.181.210" then
             pyUrlunsplit { scheme := "http", netloc := "admin_api:9000",
                            path := "/a", query := "", fragment := "" }
           else pyUnquote (pyStrip "http://109.205.181.210:9000/a")) := by
  exact fetch_admin_rewrite_before_validation (fun _ => []) .GET
    "http://109.205.181.210:9000/a"
    { scheme := "http", netloc := "109.205.181.210:9000", path := "/a",
      query := "", fragment := "" }
    "109.205.181.210" (some 9000)
    (by decide) (by decide) (by rfl) (by rfl) (by rfl) (Or.inl rfl)

/-- **C9.** The admin-service rewrite tests `parsed.hostname in
("109.205.181.210")` — Python substring containment in a single string, not
tuple membership — so every explicit `?url=` target whose hostname is any
contiguous substring of `109.205.181.210` (with port 9000 or no port) is
rewritten to target `admin_api:9000`, not only the exact IP. -/
theorem fetch_rewrite_on_any_substring_hostname (m : Method) (raw : String)
    (p : PySplit) (h : String) (po : Option Nat)
    (hraw : raw ≠ "")
    (hsplit : pyUrlsplit (pyUnquote (pyStrip raw)) = .ok p)
    (hhost : pyHostname p = some h)
    (hsub : pyIn h "109.205.181.210" = true)
    (hport : pyPort p = .ok po)
    (hpo : po = some 9000 ∨ po = none) :
    fetchTarget ⟨m, none, some raw⟩ =
      .target (pyUrlunsplit { p with netloc := "admin_api:9000" }) :=
  fetchTarget_rewrites m raw p h po hraw hsplit hhost hsub hport hpo

/-- Witness for C9: hostname `205.181` — a strict substring of the admin IP,
not the IP itself — is rewritten to `admin_api:9000`. -/
theorem fetch_rewrite_on_any_substring_hostname_witness :
    fetchTarget ⟨.GET, none, some "http://205.181:9000/a"⟩ =
      .target (pyUrlunsplit { scheme := "http", netloc := "admin_api:9000",
                              path := "/a", query := "", fragment := "" }) :=
  fetch_rewrite_on_any_substring_hostname .GET "http://205.181:9000/a"
    { scheme := "http", netloc := "205.181:9000", path := "/a",
      query := "", fragment := "" }
    "205.181" (some 9000)
    (by decide) (by rfl) (by rfl) (by decide) (by rfl) (Or.inl rfl)

/-- The request of the C3 end-to-end probe: `POST /render/json` with the JSON
body `\x7b"template": "\x7b\x7b 7*6 \x7d\x7d"\x7d`.  Flask's `request.form` is
empty for a JSON POST, so the handler sees no `template` form field and falls
back to the raw body text. -/
def c3Input : RenderIn :=
  { formTemplate := none,
    rawBody := "\x7b\"template\": \"\x7b\x7b 7*6 \x7d\x7d\"\x7d",
    formImageUrl := none,
    remoteAddr := "203.0.113.5",
    nowIso := "2026-10-12T00:00:00",
    serverTime := "2026-10-12 00:00:00 UTC" }

/-- **C3 counterexample.** The claim expects
`\x7b"rendered_html": "42"\x7d`; in fact `render_page_post_json` never parses
the request body as JSON, uses the whole body as the template source, and so
renders the JSON text around the interpolation too: the reply carries
`\x7b"template": "42"\x7d`, not `42`. -/
theorem render_json_probe_not_42 :
    (render_page_post_json jinjaModel c3Input).body =
        .rendered "\x7b\"template\": \"42\"\x7d" ∧
      JsonBody.rendered "\x7b\"template\": \"42\"\x7d" ≠ .rendered "42" := by
  exact ⟨by decide, by decide⟩

/-- **C3 (amended).** `POST /render/json` with JSON body
`\x7b"template": "\x7b\x7b 7*6 \x7d\x7d"\x7d` returns HTTP 200, but with
`rendered_html` equal to `\x7b"template": "42"\x7d`: the handler takes the raw
request body as the template source (no JSON field extraction), so the literal
JSON text surrounds the evaluated `42`. -/
theorem render_json_probe_renders_raw_body :
    (render_page_post_json jinjaModel c3Input).status = 200 ∧
      (render_page_post_json jinjaModel c3Input).body =
        .rendered "\x7b\"template\": \"42\"\x7d" := by
  exact ⟨by decide, by decide⟩

/-- The C4 counterexample request: a `POST /render/json` submission whose
rendered output contains the fake-flag marker. -/
def c4Input : RenderIn :=
  { formTemplate := none,
    rawBody := "FLAG\x7bnon_root_rce_obtained\x7d",
    formImageUrl := none,
    remoteAddr := "203.0.113.5",
    nowIso := "2026-10-12T00:00:00",
    serverTime := "2026-10-12 00:00:00 UTC" }

/-- **C4 counterexample.** A `/render/json` submission whose evaluated output
contains the marker string: the route returns the rendered text but appends
nothing to the status file — the marker check exists only in
`render_page_post`, not in `render_page_post_json`. -/
theorem marker_not_recorded_on_json_route :
    (render_page_post_json jinjaModel c4Input).body =
        .rendered "FLAG\x7bnon_root_rce_obtained\x7d" ∧
      pyIn FAKE_FLAG "FLAG\x7bnon_root_rce_obtained\x7d" = true ∧
      (render_page_post_json jinjaModel c4Input).flagAppends = [] := by
  exact ⟨by decide, by decide, by decide⟩

/-- **C4 (amended).** A render submission whose evaluated output contains the
marker `FLAG\x7bnon_root_rce_obtained\x7d` causes exactly one
`"<client-ip> <timestamp>\n"` record to be appended to the status file when it
arrives on `POST /render`; the `POST /render/json` route performs no such
check and appends nothing. -/
theorem marker_recorded_on_render_route (render : RenderOracle) (inp : RenderIn)
    (r : String)
    (hsize : (rawOf inp).utf8ByteSize ≤ MAX_TPL_BYTES)
    (hr : render (get_template_context (effImage inp.formImageUrl) inp.serverTime)
            (rawOf inp) = .ok r)
    (hflag : pyIn FAKE_FLAG r = true) :
    (render_page_post render inp).flagAppends =
        [inp.remoteAddr ++ " " ++ inp.nowIso ++ "\n"] ∧
      (render_page_post_json render inp).flagAppends = [] := by
  have hsz : ¬ ((rawOf inp).utf8ByteSize > MAX_TPL_BYTES) := not_lt.2 hsize
  constructor
  · simp [render_page_post, hsz, hr, hflag]
  · simp [render_page_post_json, hsz, hr]

/-- Witness for C4 (amended): the marker template submitted to `POST /render`
is recorded, the same submission on `POST /render/json` is not. -/
theorem marker_recorded_on_render_route_witness :
    (render_page_post jinjaModel c4Input).flagAppends =
        ["203.0.113.5" ++ " " ++ "2026-10-12T00:00:00" ++ "\n"] ∧
      (render_page_post_json jinjaModel c4Input).flagAppends = [] :=
  marker_recorded_on_render_route jinjaModel c4Input
    "FLAG\x7bnon_root_rce_obtained\x7d"
    (by decide) (by rfl) (by decide)

/-- **C6.** On both `POST /render` and `POST /render/json` the handler answers
413 exactly when the UTF-8 encoding of the effective template text exceeds
64 KiB (so a template of at most 64 KiB is never rejected for size), and an
oversized submission yields the fixed 413 response — the same value for every
rendering oracle, no template evaluation and no logging. -/
theorem render_size_limit (render : RenderOracle) (inp : RenderIn) :
    ((render_page_post render inp).status = 413 ↔
        MAX_TPL_BYTES < (rawOf inp).utf8ByteSize) ∧
      ((render_page_post_json render inp).status = 413 ↔
        MAX_TPL_BYTES < (rawOf inp).utf8ByteSize) ∧
      (MAX_TPL_BYTES < (rawOf inp).utf8ByteSize →
        render_page_post render inp =
          { status := 413, body := "Template too large", flagAppends := [],
            logLine := none } ∧
        render_page_post_json render inp =
          { status := 413, body := .err "Template too large", flagAppends := [],
            logLine := none }) := by
  by_cases hsz : MAX_TPL_BYTES < (rawOf inp).utf8ByteSize
  · refine ⟨?_, ?_, ?_⟩ <;> simp [render_page_post, render_page_post_json, hsz]
  · refine ⟨?_, ?_, fun hc => absurd hc hsz⟩ <;>
    · cases hr : render (get_template_context (effImage inp.formImageUrl)
          inp.serverTime) (rawOf inp) with
      | error e => simp [render_page_post, render_page_post_json, hsz, hr]
      | ok rendered =>
        by_cases hf : pyIn FAKE_FLAG rendered = true <;>
          simp [render_page_post, render_page_post_json, hsz, hr, hf]

/-- Witness for C6, instantiated at the modelled engine and the C3 request
(26 bytes, well under the limit). -/
theorem render_size_limit_witness :
    ((render_page_post jinjaModel c3Input).status = 413 ↔
        MAX_TPL_BYTES < (rawOf c3Input).utf8ByteSize) ∧
      ((render_page_post_json jinjaModel c3Input).status = 413 ↔
        MAX_TPL_BYTES < (rawOf c3Input).utf8ByteSize) ∧
      (MAX_TPL_BYTES < (rawOf c3Input).utf8ByteSize →
        render_page_post jinjaModel c3Input =
          { status := 413, body := "Template too large", flagAppends := [],
            logLine := none } ∧
        render_page_post_json jinjaModel c3Input =
          { status := 413, body := .err "Template too large", flagAppends := [],
            logLine := none }) :=
  render_size_limit jinjaModel c3Input

/-- **C7.** (1) Every render submission (either POST route) whose `image_url`
fails `is_safe_url` — wrong scheme, missing hostname, or ban-listed hostname —
is processed exactly as if no image URL had been submitted: the URL is
silently dropped and the request proceeds.  (2) A ban-listed hostname alone
forces `is_safe_url` to `false`, regardless of the scheme. -/
theorem unsafe_image_url_dropped :
    (∀ (render : RenderOracle) (inp : RenderIn) (u : String),
        is_safe_url u = false →
        render_page_post render { inp with formImageUrl := some u } =
            render_page_post render { inp with formImageUrl := none } ∧
          render_page_post_json render { inp with formImageUrl := some u } =
            render_page_post_json render { inp with formImageUrl := none }) ∧
      (∀ (v : String) (q : PySplit) (hb : String),
        pyUrlsplit v = .ok q → pyHostname q = some hb →
        BANNED_HOSTNAMES.contains hb = true → is_safe_url v = false) := by
  constructor
  · intro render inp u hu
    constructor
    · simp [render_page_post, rawOf, effImage, hu]
    · simp [render_page_post_json, rawOf, effImage, hu]
  · intro v q hb hsp hhost hbanned
    have hv : v ≠ "" := by
      intro hveq
      subst hveq
      have : q = { scheme := "", netloc := "", path := "", query := "", fragment := "" } := by
        have := hsp.symm.trans (by rfl : pyUrlsplit "" =
          .ok { scheme := "", netloc := "", path := "", query := "", fragment := "" })
        exact (Except.ok.injEq _ _).mp this.symm |>.symm ▸ rfl
      rw [this] at hhost
      simp [pyHostname, hostinfo, afterLast, splitFirst, findIdx] at hhost
    simp [is_safe_url, hv, hsp, hhost, hbanned]
    intro _
    simpa using hbanned

/-- Witness for C7: a ban-listed-host image URL (valid scheme) is dropped and
the C3 request is processed identically with and without it; and
`http://127.0.0.1/x.png` is unsafe. -/
theorem unsafe_image_url_dropped_witness :
    (render_page_post jinjaModel { c3Input with formImageUrl := some "http://localhost/pic.png" } =
          render_page_post jinjaModel { c3Input with formImageUrl := none } ∧
        render_page_post_json jinjaModel { c3Input with formImageUrl := some "http://localhost/pic.png" } =
          render_page_post_json jinjaModel { c3Input with formImageUrl := none }) ∧
      is_safe_url "http://127.0.0.1/x.png" = false :=
  ⟨unsafe_image_url_dropped.1 jinjaModel c3Input "http://localhost/pic.png" (by decide),
   unsafe_image_url_dropped.2 "http://127.0.0.1/x.png"
     { scheme := "http", netloc := "127.0.0.1", path := "/x.png",
       query := "", fragment := "" }
     "127.0.0.1" (by rfl) (by rfl) (by decide)⟩

/-- **C8.** `POST /feedback`: an empty or whitespace-only field is rejected
with 400; a failing log write yields 500 with nothing persisted; otherwise
exactly one line `[ts] IP=ip UA=ua MSG=<escaped text>` is appended (the text
HTML-escaped and with newlines/carriage returns replaced by literal `\n`/`\r`)
and the handler succeeds with the 303 redirect — one line indeed: when the
timestamp, IP and user agent are newline-free, the entry contains exactly one
newline, its terminator. -/
theorem feedback_contract (raw : Option String) (ts ip ua : String)
    (writeOk : Bool) :
    (pyStrip (raw.getD "") = "" →
        feedback raw ts ip ua writeOk = { status := 400, written := [] }) ∧
      (pyStrip (raw.getD "") ≠ "" → writeOk = false →
        feedback raw ts ip ua writeOk = { status := 500, written := [] }) ∧
      (pyStrip (raw.getD "") ≠ "" → writeOk = true →
        feedback raw ts ip ua writeOk =
          { status := 303, written := [feedbackEntry raw ts ip ua] } ∧
        (countCh '\n' ts = 0 → countCh '\n' ip = 0 → countCh '\n' ua = 0 →
          countCh '\n' (feedbackEntry raw ts ip ua) = 1)) := by
  refine ⟨?_, ?_, ?_⟩
  · intro h
    simp [feedback, h]
  · intro h hw
    simp [feedback, h, hw]
  · intro h hw
    refine ⟨by simp [feedback, h, hw], ?_⟩
    intro h1 h2 h3
    simp only [countCh] at h1 h2 h3 ⊢
    have hsafe : (feedbackSafe raw).data.count '\n' = 0 :=
      List.count_eq_zero.mpr (feedbackSafe_no_newline raw)
    simp [feedbackEntry, String.data_append, List.count_append,
      h1, h2, h3, hsafe]

/-- Witness for C8 at concrete inputs: whitespace-only rejected, write
failure is a 500, and a successful submission appends its single entry. -/
theorem feedback_contract_witness :
    feedback (some " \n ") "T" "9.9.9.9" "curl" true =
        { status := 400, written := [] } ∧
      feedback (some "hi <b>") "T" "9.9.9.9" "curl" false =
        { status := 500, written := [] } ∧
      (feedback (some "hi <b>\nx") "T" "9.9.9.9" "curl" true =
          { status := 303,
            written := [feedbackEntry (some "hi <b>\nx") "T" "9.9.9.9" "curl"] } ∧
        countCh '\n' (feedbackEntry (some "hi <b>\nx") "T" "9.9.9.9" "curl") = 1) := by
  refine ⟨(feedback_contract (some " \n ") "T" "9.9.9.9" "curl" true).1 (by decide),
    (feedback_contract (some "hi <b>") "T" "9.9.9.9" "curl" false).2.1
      (by decide) rfl, ?_⟩
  have h := (feedback_contract (some "hi <b>\nx") "T" "9.9.9.9" "curl" true).2.2
    (by decide) rfl
  exact ⟨h.1, h.2 (by decide) (by decide) (by decide)⟩

/-- **C10.** `GET /templates/get?name=` serves only files directly inside the
templates directory: when the handler does not 404, the served file is the
basename of the requested name — every directory component stripped, no `/`
left — and it is a regular file at `dir/<basename>`; it cannot be the empty,
`.` or `..` entry as long as those resolve to non-files (on a real filesystem
they are the directory itself or its parent); and any name whose basename is
not an existing regular file there yields the 404. -/
theorem templates_get_confined (isfile : String → Bool) (dir name : String) :
    (isfile (pyJoin dir (pyBasename name)) = false →
        templates_get isfile dir name = .notFound) ∧
      (∀ d f, templates_get isfile dir name = .serve d f →
        d = dir ∧ f = pyBasename name ∧ countCh '/' f = 0 ∧
          isfile (pyJoin dir f) = true ∧
          (isfile (pyJoin dir "") = false → f ≠ "") ∧
          (isfile (pyJoin dir ".") = false → f ≠ ".") ∧
          (isfile (pyJoin dir "..") = false → f ≠ "..")) := by
  constructor
  · intro h
    simp [templates_get, h]
  · intro d f hserve
    unfold templates_get at hserve
    by_cases hfile : isfile (pyJoin dir (pyBasename name)) = true
    · rw [if_pos (by simpa using hfile)] at hserve
      obtain ⟨hd, hf⟩ := by
        simpa using (TemplatesGetRes.serve.injEq _ _ _ _).mp hserve.symm
      subst hd hf
      refine ⟨rfl, rfl, pyBasename_no_slash name, hfile, ?_, ?_, ?_⟩ <;>
        · intro hno heq
          rw [heq] at hfile
          rw [hfile] at hno
          exact absurd hno (by simp)
    · rw [if_neg (by simpa using hfile)] at hserve
      exact absurd hserve (by simp)

/-- Witness for C10: with only `/app/templates/secret` a regular file, the
request `name=../nope` is a 404, and the request `name=../secret` serves the
stripped basename `secret` from the templates directory. -/
theorem templates_get_confined_witness :
    templates_get (fun p => p == "/app/templates/secret") "/app/templates"
        "../nope" = .notFound ∧
      ("/app/templates" = "/app/templates" ∧
        "secret" = pyBasename "../secret" ∧
        countCh '/' "secret" = 0 ∧
        (fun p => p == "/app/templates/secret") (pyJoin "/app/templates" "secret") = true ∧
        ((fun p => p == "/app/templates/secret") (pyJoin "/app/templates" "") = false →
          "secret" ≠ "") ∧
        ((fun p => p == "/app/templates/secret") (pyJoin "/app/templates" ".") = false →
          "secret" ≠ ".") ∧
        ((fun p => p == "/app/templates/secret") (pyJoin "/app/templates" "..") = false →
          "secret" ≠ "..")) :=
  ⟨(templates_get_confined (fun p => p == "/app/templates/secret")
      "/app/templates" "../nope").1 (by decide),
   (templates_get_confined (fun p => p == "/app/templates/secret")
      "/app/templates" "../secret").2 "/app/templates" "secret" (by decide)⟩

/-- **C5 counterexample.** A permitted `text/html` fetch response whose body
has no opening `<head>` tag is returned without any base tag: the injection
regex has nothing to match, so the body does not contain exactly one injected
`<base href="/fetch/" />`. -/
theorem no_base_tag_without_head :
    fetchBodyTransform "text/html; charset=utf-8" "<p>hello</p>" =
        "<p>hello</p>" ∧
      pyIn BASE_TAG "<p>hello</p>" = false := by
  exact ⟨by decide, by decide⟩

/-- **C5 (amended).** For a permitted fetch response whose `Content-Type`
contains `text/html` and whose body contains an opening `<head>` tag (first
match decomposing the body as `pre ++ m ++ rest`), and on which the
Swagger-oriented rewrite steps (2)-(5) make no further change, the returned
body is the original with exactly one `<base href="/fetch/" />` inserted,
immediately after that opening head tag; a body without a head tag receives
no base tag (counterexample above). -/
theorem base_tag_injected_after_head (ct body pre m rest : String)
    (hct : pyIn "text/html" (pyLower ct) = true)
    (hhead : headFind body = some (pre, m, rest))
    (h2 : rewriteStatic (injectBase body) = injectBase body)
    (h3 : scriptNoneNull (injectBase body) = injectBase body)
    (h4 : stripOnload (injectBase body) = injectBase body)
    (h5 : pyIn "</body>" (injectBase body) = false) :
    body = pre ++ m ++ rest ∧
      fetchBodyTransform ct body = pre ++ m ++ BASE_TAG ++ rest := by
  refine ⟨headFind_decomp body pre m rest hhead, ?_⟩
  unfold fetchBodyTransform
  rw [if_pos (by simp [hct])]
  unfold htmlProxyRewrite
  rw [h2, h3, h4]
  unfold appendSwagger
  rw [pyReplace_id_of_not_in _ _ _ h5]
  exact injectBase_eq body pre m rest hhead

/-- Witness for C5 (amended) on a concrete permitted HTML page. -/
theorem base_tag_injected_after_head_witness :
    "<html><head><title>x</title></head><div>hi</div></html>" =
        "<html>" ++ "<head>" ++ "<title>x</title></head><div>hi</div></html>" ∧
      fetchBodyTransform "text/html; charset=utf-8"
          "<html><head><title>x</title></head><div>hi</div></html>" =
        "<html>" ++ "<head>" ++ BASE_TAG ++
          "<title>x</title></head><div>hi</div></html>" :=
  base_tag_injected_after_head "text/html; charset=utf-8"
    "<html><head><title>x</title></head><div>hi</div></html>"
    "<html>" "<head>" "<title>x</title></head><div>hi</div></html>"
    (by decide) (by rfl) (by decide) (by decide) (by decide) (by decide)

end Claims
